import Mathlib

/-!
Verification of the SCCS chat assistant backend (`src/chatbot.py`).

The Python service is shallowly embedded: JSON-ish Python values become the
inductive `PyVal`, Python runtime exceptions become `PyErr` threaded through
`Except`, the two outbound HTTP dependencies (the library data service and the
OpenRouter completion service) are abstracted into an environment `Env`, and
the `/chat` endpoint becomes the pure function `chat_endpoint` that also
records a trace of outbound library calls and the message list sent to the
completion service.
-/

set_option autoImplicit false

namespace SCCS

/-- Python values as they occur in this service: `None`, booleans, integers,
strings, lists and string-keyed dicts (parsed JSON bodies, request fields). -/
inductive PyVal where
  | none
  | bool (b : Bool)
  | int (n : Int)
  | str (s : String)
  | list (xs : List PyVal)
  | dict (fs : List (String × PyVal))

/-- Python exceptions that the endpoint code can raise.  The endpoint's
function-level `except Exception` treats them all alike, so only the
distinction raised-vs-not matters, but we keep the class for clarity. -/
inductive PyErr where
  | httpExc (status : Nat) (detail : String)
  | attributeError
  | typeError
  | keyError (k : String)
  | indexError
deriving Repr, DecidableEq

/-- Python truthiness (`if x:`) for the values above. -/
def pyTruthy : PyVal → Bool
  | PyVal.none => false
  | PyVal.bool b => b
  | PyVal.int n => n != 0
  | PyVal.str s => s != ""
  | PyVal.list xs => !xs.isEmpty
  | PyVal.dict fs => !fs.isEmpty

/-- First binding of a key in a dict (Python dicts have unique keys, so an
association list searched front to back models them). -/
def dictFind (fs : List (String × PyVal)) (k : String) : Option PyVal :=
  match fs with
  | [] => Option.none
  | (k2, v) :: rest => if k2 = k then some v else dictFind rest k

/-- Python `d.get(k, default)` on a dict. -/
def dictGetD (fs : List (String × PyVal)) (k : String) (d : PyVal) : PyVal :=
  match dictFind fs k with
  | some v => v
  | Option.none => d

/-- Python subscript `v[k]` with a string key: dict lookup (`KeyError` when
missing), `TypeError` on any non-dict. -/
def pySub (v : PyVal) (k : String) : Except PyErr PyVal :=
  match v with
  | PyVal.dict fs =>
    match dictFind fs k with
    | some x => Except.ok x
    | Option.none => Except.error (PyErr.keyError k)
  | _ => Except.error PyErr.typeError

/-- Python `v[0]` as used on the completion response's `choices`. -/
def pyIndex0 (v : PyVal) : Except PyErr PyVal :=
  match v with
  | PyVal.list [] => Except.error PyErr.indexError
  | PyVal.list (x :: _) => Except.ok x
  | _ => Except.error PyErr.typeError

mutual
/-- Python `repr` of a value, as produced inside `str` of containers.  String
escaping inside `repr` is not modelled (no claim reaches it). -/
def pyRepr : PyVal → String
  | PyVal.none => "None"
  | PyVal.bool b => if b then "True" else "False"
  | PyVal.int n => toString n
  | PyVal.str s => "\x27" ++ s ++ "\x27"
  | PyVal.list xs => "[" ++ pyReprList xs ++ "]"
  | PyVal.dict fs => "\x7b" ++ pyReprFields fs ++ "\x7d"

def pyReprList : List PyVal → String
  | [] => ""
  | [x] => pyRepr x
  | x :: y :: xs => pyRepr x ++ ", " ++ pyReprList (y :: xs)

def pyReprFields : List (String × PyVal) → String
  | [] => ""
  | [(k, v)] => "\x27" ++ k ++ "\x27: " ++ pyRepr v
  | (k, v) :: f :: fs => "\x27" ++ k ++ "\x27: " ++ pyRepr v ++ ", " ++ pyReprFields (f :: fs)
end

/-- Python `str(v)`, as applied to interpolated f-string fields. -/
def pyStr : PyVal → String
  | PyVal.str s => s
  | v => pyRepr v

/-- The characters removed by Python `str.strip()` (ASCII whitespace; Python
also strips Unicode spaces, which never occur in this development). -/
def pyIsSpace (c : Char) : Bool :=
  c == ' ' || c == '\t' || c == '\n' || c == '\r' || c == '\x0b' || c == '\x0c'

/-- Python `s.strip()`. -/
def pyStrip (s : String) : String :=
  String.mk (((s.toList.dropWhile pyIsSpace).reverse.dropWhile pyIsSpace).reverse)

/-- Python `s.lower()` restricted to ASCII (the Unicode case table is not
modelled; every string the claims quantify over concretely is ASCII). -/
def asciiLower (s : String) : String :=
  String.mk (s.toList.map Char.toLower)

/-- `listPre n h` iff `n` is a prefix of `h` (character lists). -/
def listPre : List Char → List Char → Bool
  | [], _ => true
  | _ :: _, [] => false
  | a :: as, b :: bs => a == b && listPre as bs

/-- `listSub n h` iff `n` occurs as a contiguous substring of `h`. -/
def listSub : List Char → List Char → Bool
  | n, [] => n.isEmpty
  | n, h :: t => listPre n (h :: t) || listSub n t

/-- Python `needle in haystack` on strings. -/
def hasSub (needle hay : String) : Bool :=
  listSub needle.toList hay.toList

/-- Python `xs[-n:]`: the last `n` elements (all of them when fewer). -/
def lastN (n : Nat) (xs : List PyVal) : List PyVal :=
  xs.drop (xs.length - n)

/-! ## The module-code regex `\b[A-Z]{3}[0-9]{4}\b` (line 198 of the source)

`re.search` scans left to right and returns the leftmost match.  A word
character for `\b` is `[A-Za-z0-9_]`; the Unicode extension of `\w` is not
modelled (all quantified strings in the claims are ASCII). -/

/-- Word character for the `\b` boundary. -/
def isWordChar (c : Char) : Bool :=
  c.isAlphanum || c == '_'

/-- Try to match `[A-Z]{3}[0-9]{4}` at the head of the list; on success
return the seven matched characters and the remainder. -/
def coreAt : List Char → Option (List Char × List Char)
  | a :: b :: c :: d :: e :: f :: g :: rest =>
    if a.isUpper && b.isUpper && c.isUpper &&
       d.isDigit && e.isDigit && f.isDigit && g.isDigit then
      some ([a, b, c, d, e, f, g], rest)
    else Option.none
  | _ => Option.none

/-- The trailing `\b`: end of string, or a non-word character next. -/
def afterOk : List Char → Bool
  | [] => true
  | c :: _ => !isWordChar c

/-- Left-to-right scan for `\b[A-Z]{3}[0-9]{4}\b`; `prevWord` says whether
the character before the current position is a word character (the leading
`\b` holds exactly when it is not, since the pattern starts with a word
character). -/
def scanModule (prevWord : Bool) : List Char → Option (List Char)
  | [] => Option.none
  | c :: cs =>
    match (if prevWord then Option.none else coreAt (c :: cs)) with
    | some (tok, rest) =>
      if afterOk rest then some tok else scanModule (isWordChar c) cs
    | Option.none => scanModule (isWordChar c) cs

/-- `re.search(r'\b[A-Z]{3}[0-9]{4}\b', message)` followed by `.group(0)`:
the leftmost boundary-delimited module token, if any. -/
def moduleOf (message : String) : Option String :=
  (scanModule false message.toList).map String.mk

/-- Does `[A-Z]{3}[0-9]{4}` match at the head? -/
def coreHere (l : List Char) : Bool :=
  (coreAt l).isSome

/-- Does the list contain an occurrence of `[A-Z]{3}[0-9]{4}` anywhere
(ignoring boundaries)?  This is the formal reading of "contains a
3-letter+4-digit token". -/
def hasCore : List Char → Bool
  | [] => false
  | c :: t => coreHere (c :: t) || hasCore t

/-- Exactly three uppercase letters followed by four digits. -/
def corePat : List Char → Bool
  | [a, b, c, d, e, f, g] =>
    a.isUpper && b.isUpper && c.isUpper &&
    d.isDigit && e.isDigit && f.isDigit && g.isDigit
  | _ => false

/-! ## `format_time` (lines 162-167)

`datetime.strptime(time_str, '%H:%M')`: `%H` matches one or two digits with
value 0-23, then a literal `:`, then `%M` one or two digits with value 0-59,
and any unconverted trailing data raises `ValueError`.  The four possible
digit-count shapes are disjoint by the position of the colon. -/

/-- Numeric value of a digit character. -/
def digVal (c : Char) : Nat :=
  c.toNat - '0'.toNat

/-- `datetime.strptime(s, '%H:%M')`, returning the parsed (hour, minute). -/
def pyStrptimeHM (s : String) : Option (Nat × Nat) :=
  match s.toList with
  | [a, ':', c] =>
    if a.isDigit && c.isDigit then some (digVal a, digVal c) else Option.none
  | [a, ':', c, d] =>
    if a.isDigit && c.isDigit && d.isDigit && 10 * digVal c + digVal d ≤ 59 then
      some (digVal a, 10 * digVal c + digVal d)
    else Option.none
  | [a, b, ':', c] =>
    if a.isDigit && b.isDigit && 10 * digVal a + digVal b ≤ 23 && c.isDigit then
      some (10 * digVal a + digVal b, digVal c)
    else Option.none
  | [a, b, ':', c, d] =>
    if a.isDigit && b.isDigit && 10 * digVal a + digVal b ≤ 23 &&
       c.isDigit && d.isDigit && 10 * digVal c + digVal d ≤ 59 then
      some (10 * digVal a + digVal b, 10 * digVal c + digVal d)
    else Option.none
  | _ => Option.none

/-- Two-digit zero padding, as in `strftime` `%I`/`%M`. -/
def pad2 (n : Nat) : String :=
  if n < 10 then "0" ++ toString n else toString n

/-- `strftime('%I:%M %p')`: 12-hour zero-padded hour, minute, AM/PM. -/
def strftimeIMp (h m : Nat) : String :=
  pad2 (if h % 12 = 0 then 12 else h % 12) ++ ":" ++ pad2 m ++ " " ++
    (if h < 12 then "AM" else "PM")

/-- `format_time` (source lines 162-167): convert `HH:MM` to a 12-hour
rendering; the bare `except:` returns any unparseable input unchanged. -/
def format_time (time_str : String) : String :=
  match pyStrptimeHM time_str with
  | some (h, m) => strftimeIMp h m
  | Option.none => time_str

/-- `format_time` applied to an arbitrary value (a non-string argument makes
`strptime` raise `TypeError`, which the bare `except:` also swallows,
returning the argument unchanged). -/
def format_timeV : PyVal → PyVal
  | PyVal.str s => PyVal.str (format_time s)
  | v => v

/-! ## The `/chat` endpoint (lines 170-341)

The two outbound HTTP dependencies are abstracted into `Env`:
`Env.library ep ps` is what `fetch_library_data(ep, ps)` returns, where
`Option.none` is its sentinel `None` (any network error, timeout, non-2xx
status or body-parse failure, lines 151-153); `Env.completion` is the
OpenRouter call, `Except.error ()` standing for any
`requests.exceptions.RequestException` (transport error, timeout, or the
non-2xx raised by `raise_for_status`) and `Except.ok v` for a 2xx response
with parsed JSON body `v`. -/

/-- One call made through `fetch_library_data`: the endpoint path and the
query parameters (`Option.none` when the `params` argument was omitted). -/
structure LibCall where
  endpoint : String
  params : Option (List (String × PyVal))

/-- Observable outcome of one request to `/chat`: HTTP status, the `reply`
field of the JSON response, the library calls issued (in order), and the
message list sent to the completion service (`Option.none` when that call
was never attempted). -/
structure Trace where
  status : Nat
  reply : String
  libCalls : List LibCall
  sentMessages : Option (List PyVal)

/-- Truthiness of a `fetch_library_data` result (`if computers:` etc.). -/
def fetchTruthy : Option PyVal → Bool
  | Option.none => false
  | some v => pyTruthy v

/-- Sequential `mapM` over `Except`, modelling a Python list comprehension
(elements evaluated left to right, first exception aborts). -/
def exMap (f : PyVal → Except PyErr String) : List PyVal → Except PyErr (List String)
  | [] => Except.ok []
  | x :: xs => do
    let y ← f x
    let ys ← exMap f xs
    pure (y :: ys)

/-- Sequential filter over `Except`, modelling a comprehension with an `if`
clause whose condition may raise. -/
def exFilter (f : PyVal → Except PyErr Bool) : List PyVal → Except PyErr (List PyVal)
  | [] => Except.ok []
  | x :: xs => do
    let b ← f x
    let rest ← exFilter f xs
    pure (if b then x :: rest else rest)

/-- `get_campus_id` (lines 156-160). -/
def get_campus_id (message : String) : Int :=
  if hasSub "siyabuswa" (asciiLower message) then 2 else 1

/-- The text of `SCCS_SYSTEM_PROMPT["content"]` (lines 46-136). -/
def sccsPromptContent : String :=
  "\n" ++ String.intercalate "\n" [
    "# Smart Campus Companion System (SCCS) AI Assistant Protocol",
    "",
    "## 🏛️ University Context: University of Mpumalanga (UMP)",
    "- 📍 Campuses: Mbombela (Main), Siyabuswa",
    "- 👥 User Base: 15,000+ students and staff",
    "- 🎓 Faculties:",
    "  - Faculty of Agriculture and Natural Sciences (FANS)",
    "  - Faculty of Education",
    "  - Faculty of Economics, Development and Business Sciences",
    "- 🏢 Key Infrastructure:",
    "  - J-Block Lecture Halls, Science Building, UMP Conference Centre",
    "  - UMP Library (Mbombela: Building 15, Siyabuswa: Building 2)",
    "  - Wi-Fi Zones, ICT Labs, Innovation Hub, On-campus Residences",
    "- 💻 Official Systems:",
    "  - SCCS App (Smart Campus Companion System)",
    "  - Moodle (Learning Management System)",
    "  - ITS iEnabler (Student registration and records): https://ienabler.ump.ac.za",
    "  - UMP Email and Online Portals (My UMP App)",
    "- 🗓️ Academic Calendar:",
    "  - Semester-based (Feb–Jun, Jul–Nov)",
    "  - Registration:",
    "    - First-Year: 2–7 Feb 2025 (online); 3–7 Feb (on campus)",
    "    - Returning UG: 2–14 Feb (online); 10–14 Feb (on campus)",
    "    - Postgrad (PGDip/Honours): 2–14 Feb; Masters/Doctoral: until 30 Apr 2025",
    "  - Orientation Week: 10–14 Feb 2025",
    "  - Lectures Start: 17 Feb 2025",
    "  - Late Registration: 17–28 Feb 2025",
    "  - Exams:",
    "    - Sem 1: 26 May–20 Jun 2025",
    "    - Sem 2: 3–28 Nov 2025",
    "    - Re-exams: 14–23 Jul 2025 (Sem 1); 13–22 Jan 2025 (2024 Sem 2)",
    "  - Other Dates: Mid-sem breaks (31 Mar–4 Apr, 23 Jun–18 Jul), Holidays (e.g., 2 Mar, 15 Dec)",
    "",
    "## Core Capabilities (ONLY answer about these):",
    "",
    "### 1. 🎓 Academic & Career Guidance",
    "- Assist in choosing UMP programs based on NSC subjects and GPA",
    "- Recommend career paths aligned with programs and skills",
    "- Support for module registration via ITS/SCCS integration",
    "- Help track academic progress (e.g., “How to check grades on Moodle”)",
    "- Access to:",
    "  - Student & Graduate Placement Office (career advice, WIL, internships)",
    "  - Career Expo (e.g., 2024 event hosted 40+ employers)",
    "  - Work-readiness workshops (CV writing, interviews, SACE prep)",
    "  - Online job boards, scholarship portals, and appointment booking",
    "  - Counseling Services (academic, personal, career planning)",
    "",
    "### 2. 📚 Digital Library & Peer Tutoring Services",
    "- Search textbooks/resources by module code (e.g., INF1511)",
    "- Reserve study rooms (via library booking system)",
    "- Request peer tutors (first-years or module-specific help)",
    "- Access digital tools (Primo search, LibGuides, eBooks, PressReader)",
    "- Use services like printing, renewals, reference help, and research queries",
    "- Contact:",
    "  - Mbombela: Building 15 | Siyabuswa: Building 2",
    "  - Email: library@ump.ac.za | WhatsApp line during open hours",
    "  - Hours: Mon–Fri 8:00–20:00, Sat 8:00–13:00 (Closed Sundays/holidays)",
    "",
    "### 3. 🏫 Campus Life & Event Engagement",
    "- Discover and RSVP to UMP events (e.g., Tech Talks, Career Fairs, Open Days)",
    "- Notable Events:",
    "  - Open Day: 13 Aug 2024 for Grade 12s at Mbombela",
    "  - Women\x27s Month Event: “Woman, Ignite Your Light” (23 Aug 2024)",
    "  - Mandela Day Projects: 18 Jul 2024 (both campuses)",
    "  - Career Expo: Sept 2024 (40+ employers)",
    "  - Humanities & Dev Lecture: 11 Nov 2024",
    "  - Wikipedia Workshop: Apr 2025; SWiP Language Workshop: May 2025",
    "  - Campus Sports Day: 19 May 2025 (Mbombela vs Siyabuswa)",
    "  - 10th Graduation Ceremony: 17 May 2025",
    "- View campus club lists and register (via SCCS Events/Clubs portal)",
    "- Track participation in leadership and mentorship programs",
    "- Suggest events by category (Academic, Social, Sport, etc.)",
    "- Directions to venues (e.g., “Where is the UMP Conference Centre?”)",
    "",
    "### 4. 🔍 Smart Campus Services",
    "- Report IT or infrastructure issues (redirect to ICT Service Desk or Helpdesk)",
    "- Assist with Moodle login or iEnabler portal issues (registration, results, timetable)",
    "- Locate ICT labs or find Wi-Fi zones",
    "- Confirm Wi-Fi SSID: “UMP-Wi-Fi” or “Siyabuswa_Wi-Fi”; Eduroam supported",
    "- Technical Help:",
    "  - ICT Service Desk",
    "  - Call Centre for portal/login issues: 013 002 0047/50",
    "  - General Switchboard: 013 002 0001 | Email: info@ump.ac.za",
    "- Infrastructure:",
    "  - Advanced science, ICT, and life science labs",
    "  - Engineering and Computing buildings equipped for UG/postgrad use",
    "",
    "**IMPORTANT:** When you reply to user queries, do NOT use Markdown formatting. Respond in plain text without any asterisks, hashes, or bullet‐point syntax.**",
    ""
  ] ++ "\n"

/-- `SCCS_SYSTEM_PROMPT` (lines 44-137). -/
def SCCS_SYSTEM_PROMPT : PyVal :=
  PyVal.dict [("role", PyVal.str "system"), ("content", PyVal.str sccsPromptContent)]

/-- The request body of `/chat` (`ChatRequest`, lines 38-41); `context`
elements are arbitrary client-supplied JSON values. -/
structure ChatRequest where
  message : String
  user_id : Option String
  context : Option (List PyVal)

/-- The abstracted outbound world: library data service and completion
service responses. -/
structure Env where
  library : String → Option (List (String × PyVal)) → Option PyVal
  completion : Except Unit PyVal

/-- Line 341: the generic apology returned by the function-level
`except Exception` handler. -/
def techDifficultiesReply : String :=
  "Apologies, I\x27m experiencing technical difficulties. Please contact help@ump.ac.za for immediate support."

/-- Line 330: the apology returned when the OpenRouter call fails. -/
def busyReply : String :=
  "Our systems are currently busy. Please try again in a moment."

/-- Lines 226-227: the clarification asked when even the fallback book fetch
yields nothing (two adjacent Python string literals, hence the single space
after the period). -/
def bookClarification : String :=
  "I’m sorry, I couldn’t find any books. Could you provide a title, author, or module code?"

/-- One line of the book enrichment (line 220):
`f"{b.get('title','?')} by {b.get('author','?')} (Available: {b.get('copies_available',0)})"`;
`.get` on a non-dict element raises `AttributeError`. -/
def bookLine (b : PyVal) : Except PyErr String :=
  match b with
  | PyVal.dict fs =>
    Except.ok (pyStr (dictGetD fs "title" (PyVal.str "?")) ++ " by " ++
      pyStr (dictGetD fs "author" (PyVal.str "?")) ++ " (Available: " ++
      pyStr (dictGetD fs "copies_available" (PyVal.int 0)) ++ ")")
  | _ => Except.error PyErr.attributeError

/-- The book sub-intent (lines 197-227). -/
def bookBranch (env : Env) (message : String) : List LibCall × Except PyErr String :=
  let module_code := moduleOf message
  let params : List (String × PyVal) :=
    ("q", PyVal.str message) ::
      (match module_code with
       | some m => [("module", PyVal.str m)]
       | Option.none => [])
  let raw := env.library "books" (some params)
  -- lines 206-210: items = [] / raw["items"] / raw
  let items : PyVal :=
    match raw with
    | some (PyVal.dict fs) =>
      let g := dictGetD fs "items" PyVal.none
      if pyTruthy g then g else PyVal.list []
    | some (PyVal.list xs) => PyVal.list xs
    | _ => PyVal.list []
  let fallbackParams : List (String × PyVal) := [("page", PyVal.int 1), ("per_page", PyVal.int 5)]
  -- lines 212-216: one fallback fetch; `raw2.get(...)` raises
  -- AttributeError unless raw2 is a dict (in particular on the sentinel
  -- None and on a JSON list body)
  let step : List LibCall × Except PyErr PyVal :=
    if !pyTruthy items then
      let raw2 := env.library "books" (some fallbackParams)
      (⟨"books", some params⟩ :: ⟨"books", some fallbackParams⟩ :: [],
       match raw2 with
       | some (PyVal.dict fs) => Except.ok (dictGetD fs "items" (PyVal.list []))
       | _ => Except.error PyErr.attributeError)
    else (⟨"books", some params⟩ :: [], Except.ok items)
  (step.1,
   match step.2 with
   | Except.error e => Except.error e
   | Except.ok items2 =>
     -- lines 218-227
     if pyTruthy items2 then
       match items2 with
       | PyVal.list xs => do
         let book_list ← exMap bookLine (xs.take 5)
         pure ("Here are some books you might like:\n" ++ String.intercalate "\n" book_list)
       | _ => Except.error PyErr.typeError  -- slicing/iterating a non-list fails
     else Except.ok bookClarification)

/-- One line of the computers enrichment (line 234). -/
def computerLine (c : PyVal) : Except PyErr String := do
  let ident ← pySub c "identifier"
  let specs ← pySub c "specs"
  let occ ← pySub c "is_occupied"
  pure (pyStr ident ++ " (" ++ pyStr specs ++ ") — " ++
    (if pyTruthy occ then "Occupied" else "Free"))

/-- The computers sub-intent (lines 230-236). -/
def computersBranch (env : Env) (campus_id : Int) : List LibCall × Except PyErr String :=
  let ep := "libraries/" ++ toString campus_id ++ "/computers"
  let computers := env.library ep Option.none
  (⟨ep, Option.none⟩ :: [],
   if fetchTruthy computers then
     match computers with
     | some (PyVal.list xs) => do
       let lines ← exMap computerLine (xs.take 5)
       pure ("Available Computers:\n" ++ String.intercalate "\n" lines)
     | _ => Except.error PyErr.typeError
   else Except.ok "")

/-- One line of the seats enrichment (line 243). -/
def seatLine (s : PyVal) : Except PyErr String := do
  let ident ← pySub s "identifier"
  let isComp ← pySub s "is_computer"
  pure (pyStr ident ++ " (" ++ (if pyTruthy isComp then "Computer" else "Study") ++ ")")

/-- The seats sub-intent (lines 238-245): filter out occupied seats, list at
most five of the free ones. -/
def seatsBranch (env : Env) (campus_id : Int) : List LibCall × Except PyErr String :=
  let ep := "libraries/" ++ toString campus_id ++ "/seats/availability"
  let seats := env.library ep Option.none
  (⟨ep, Option.none⟩ :: [],
   if fetchTruthy seats then
     match seats with
     | some (PyVal.list xs) => do
       let free ← exFilter (fun s => do
         let occ ← pySub s "is_occupied"
         pure (!pyTruthy occ)) xs
       let lines ← exMap seatLine (free.take 5)
       pure ("Available Seats:\n" ++ String.intercalate "\n" lines)
     | _ => Except.error PyErr.typeError
   else Except.ok "")

/-- Python `body[:50]` inside the announcements line (line 252). -/
def slice50 (v : PyVal) : Except PyErr PyVal :=
  match v with
  | PyVal.str s => Except.ok (PyVal.str (String.mk (s.toList.take 50)))
  | PyVal.list xs => Except.ok (PyVal.list (xs.take 50))
  | _ => Except.error PyErr.typeError

/-- One line of the announcements enrichment (line 252). -/
def announcementLine (a : PyVal) : Except PyErr String := do
  let t ← pySub a "title"
  let b ← pySub a "body"
  let sliced ← slice50 b
  pure (pyStr t ++ ": " ++ pyStr sliced ++ "...")

/-- The announcements sub-intent (lines 248-255). -/
def announceBranch (env : Env) : List LibCall × Except PyErr String :=
  let ps : List (String × PyVal) := [("limit", PyVal.int 3)]
  let anns := env.library "announcements" (some ps)
  (⟨"announcements", some ps⟩ :: [],
   if fetchTruthy anns then
     match anns with
     | some (PyVal.list xs) => do
       let lines ← exMap announcementLine xs
       pure ("Latest Announcements:\n" ++ String.intercalate "\n" lines)
     | _ => Except.error PyErr.typeError
   else Except.ok "")

/-- One line of the hours enrichment (line 262). -/
def hoursLine (day : PyVal) : Except PyErr String := do
  let w ← pySub day "weekday"
  let o ← pySub day "open_time"
  let c ← pySub day "close_time"
  pure (pyStr w ++ ": " ++ pyStr (format_timeV o) ++ " to " ++ pyStr (format_timeV c))

/-- The library-hours sub-intent (lines 258-265). -/
def hoursBranch (env : Env) (campus_id : Int) : List LibCall × Except PyErr String :=
  let ep := "libraries/" ++ toString campus_id ++ "/hours"
  let hours := env.library ep Option.none
  (⟨ep, Option.none⟩ :: [],
   if fetchTruthy hours then
     match hours with
     | some (PyVal.list xs) => do
       let lines ← exMap hoursLine xs
       pure ("Library Hours:\n" ++ String.intercalate "\n" lines)
     | _ => Except.error PyErr.typeError
   else Except.ok "")

/-- One line of the study-rooms enrichment (line 272). -/
def studyRoomLine (r : PyVal) : Except PyErr String := do
  let n ← pySub r "name"
  let cap ← pySub r "capacity"
  let mc ← pySub r "member_count"
  pure (pyStr n ++ " (" ++ pyStr cap ++ " seats, " ++ pyStr mc ++ " occupied)")

/-- The study-rooms sub-intent (lines 268-275). -/
def studyRoomsBranch (env : Env) : List LibCall × Except PyErr String :=
  let rooms := env.library "study_rooms" Option.none
  (⟨"study_rooms", Option.none⟩ :: [],
   if fetchTruthy rooms then
     match rooms with
     | some (PyVal.list xs) => do
       let lines ← exMap studyRoomLine (xs.take 3)
       pure ("Study Rooms:\n" ++ String.intercalate "\n" lines)
     | _ => Except.error PyErr.typeError
   else Except.ok "")

/-- The dead second computers sub-intent (lines 278-285); its guard repeats
branch 2's, so it can never be reached, but it is kept for fidelity. -/
def computers2Branch (env : Env) (campus_id : Int) : List LibCall × Except PyErr String :=
  let ep := "libraries/" ++ toString campus_id ++ "/computers"
  let computers := env.library ep Option.none
  (⟨ep, Option.none⟩ :: [],
   if fetchTruthy computers then
     match computers with
     | some (PyVal.list xs) => do
       let act ← exFilter (fun c => do
         let a ← pySub c "is_active"
         pure (pyTruthy a)) (xs.take 3)
       let lines ← exMap (fun c => do
         let i ← pySub c "identifier"
         let s ← pySub c "specs"
         pure ("Computer " ++ pyStr i ++ " (" ++ pyStr s ++ ")")) act
       pure ("Available Computers:\n" ++ String.intercalate "\n" lines)
     | _ => Except.error PyErr.typeError
   else Except.ok "")

/-- One line of the general-rooms enrichment (line 291). -/
def roomLine (r : PyVal) : Except PyErr String := do
  let n ← pySub r "name"
  let t ← pySub r "room_type"
  pure (pyStr n ++ " (" ++ pyStr t ++ ")")

/-- The general-rooms sub-intent (lines 288-292). -/
def roomsBranch (env : Env) (campus_id : Int) : List LibCall × Except PyErr String :=
  let ep := "libraries/" ++ toString campus_id ++ "/rooms"
  let rooms := env.library ep Option.none
  (⟨ep, Option.none⟩ :: [],
   if fetchTruthy rooms then
     match rooms with
     | some (PyVal.list xs) => do
       let lines ← exMap roomLine xs
       pure ("Available Rooms:\n" ++ String.intercalate "\n" lines)
     | _ => Except.error PyErr.typeError
   else Except.ok "")

/-- The nine gate keywords of line 190-193, in source order. -/
def gateKeywords : List String :=
  ["book", "library", "seat", "computer", "room",
   "announcement", "hour", "study room", "venue"]

/-- The gate `any(keyword in user_message for keyword in [...])`. -/
def gate (um : String) : Bool :=
  gateKeywords.any (fun k => hasSub k um)

/-- The whole intent dispatch (lines 190-292): the library calls issued and
either the resulting `library_context` string or the Python exception that
escaped the branch.  `library_context` starts as `""` and is only assigned
inside sub-intents, so every untaken path yields `Except.ok ""`. -/
def libraryDispatch (env : Env) (message : String) : List LibCall × Except PyErr String :=
  let um := asciiLower message
  if gate um then
    let campus_id := get_campus_id message
    if hasSub "book" um || hasSub "textbook" um then
      bookBranch env message
    else if hasSub "computer" um then
      computersBranch env campus_id
    else if hasSub "seat" um then
      seatsBranch env campus_id
    else if hasSub "announcement" um || hasSub "news" um then
      announceBranch env
    else if hasSub "hour" um || hasSub "open" um || hasSub "close" um then
      hoursBranch env campus_id
    else if hasSub "study room" um || hasSub "group study" um then
      studyRoomsBranch env
    else if hasSub "computer" um then
      computers2Branch env campus_id
    else if hasSub "room" um || hasSub "venue" um then
      roomsBranch env campus_id
    else ([], Except.ok "")
  else ([], Except.ok "")

/-- `result["choices"][0]["message"]["content"]` followed by `.replace`
(lines 332-334); a non-string content makes `.replace` raise
`AttributeError`. -/
def extractContent (result : PyVal) : Except PyErr String := do
  let choices ← pySub result "choices"
  let first ← pyIndex0 choices
  let msg ← pySub first "message"
  let content ← pySub msg "content"
  match content with
  | PyVal.str s => Except.ok s
  | _ => Except.error PyErr.attributeError

/-- Lines 173-336, the body of the endpoint's `try:` block.  On a Python
exception it returns it together with the library calls already issued and
the completion payload when one had already been posted. -/
def chatInner (env : Env) (request : ChatRequest) :
    Except (PyErr × List LibCall × Option (List PyVal)) Trace :=
  -- lines 174-175: `if not request.message.strip(): raise HTTPException(400, ...)`
  if pyStrip request.message = "" then
    Except.error (PyErr.httpExc 400 "Empty message", [], Option.none)
  else
    -- lines 180-187
    let messages1 : List PyVal := [SCCS_SYSTEM_PROMPT]
    let messages2 : List PyVal :=
      match request.context with
      | some ctx => if !ctx.isEmpty then messages1 ++ lastN 3 ctx else messages1
      | Option.none => messages1
    -- lines 190-292
    let d := libraryDispatch env request.message
    match d.2 with
    | Except.error e => Except.error (e, d.1, Option.none)
    | Except.ok library_context =>
      -- lines 295-303
      let messages3 : List PyVal :=
        if library_context ≠ "" then
          messages2 ++ [PyVal.dict [("role", PyVal.str "system"), ("content", PyVal.str library_context)]]
        else messages2
      let messages4 : List PyVal :=
        messages3 ++ [PyVal.dict [("role", PyVal.str "user"), ("content", PyVal.str request.message)]]
      -- lines 320-336
      match env.completion with
      | Except.error _ =>
        Except.ok ⟨200, busyReply, d.1, some messages4⟩
      | Except.ok result =>
        match extractContent result with
        | Except.error e => Except.error (e, d.1, some messages4)  -- raised at line 333/334
        | Except.ok content =>
          Except.ok ⟨200, pyStrip (content.replace "OpenRouter" "SCCS"), d.1, some messages4⟩

/-- The `/chat` endpoint (lines 170-341).  The function-level
`except Exception` (line 338) also catches the `HTTPException` raised at
line 175 — `HTTPException` subclasses `Exception` — so every exception,
including the intended 400, becomes an HTTP 200 with the generic apology. -/
def chat_endpoint (env : Env) (request : ChatRequest) : Trace :=
  match chatInner env request with
  | Except.ok t => t
  | Except.error (_, calls, sent) => ⟨200, techDifficultiesReply, calls, sent⟩

/-! ## Derived views and concrete worlds used in the theorems -/

/-- The context block of the conversation: `context[-3:]` when a non-empty
context list was supplied, nothing otherwise (lines 186-187). -/
def ctxMsgs : Option (List PyVal) → List PyVal
  | some ctx => if !ctx.isEmpty then lastN 3 ctx else []
  | Option.none => []

/-- The enrichment block of the conversation: one system-role message when
the enrichment text is non-empty, nothing otherwise (lines 295-299). -/
def enrichmentMsgs (lc : String) : List PyVal :=
  if lc ≠ "" then
    [PyVal.dict [("role", PyVal.str "system"), ("content", PyVal.str lc)]]
  else []

/-- The user's message as appended at line 303. -/
def userMsg (message : String) : PyVal :=
  PyVal.dict [("role", PyVal.str "user"), ("content", PyVal.str message)]

/-- A seat record as the seats sub-intent needs it: a dict carrying the
three keys it subscripts. -/
def isSeatDict : PyVal → Bool
  | PyVal.dict fs =>
    (dictFind fs "identifier").isSome && (dictFind fs "is_occupied").isSome &&
      (dictFind fs "is_computer").isSome
  | _ => false

/-- Field of a seat record (total view used to state what the branch
renders). -/
def seatField (s : PyVal) (k : String) : PyVal :=
  match s with
  | PyVal.dict fs => dictGetD fs k PyVal.none
  | _ => PyVal.none

/-- The line the seats enrichment renders for one free seat. -/
def seatLinePure (s : PyVal) : String :=
  pyStr (seatField s "identifier") ++ " (" ++
    (if pyTruthy (seatField s "is_computer") then "Computer" else "Study") ++ ")"

/-- A world where every outbound dependency fails: the library data service
is unreachable (`fetch_library_data` returns its `None` sentinel) and the
completion call raises a `RequestException`. -/
def envDown : Env :=
  ⟨fun _ _ => Option.none, Except.error ()⟩

/-- A world where the books query returns an object with an empty `items`
list, but the unfiltered fallback page comes back as a bare (empty) JSON
array. -/
def envBooksListFallback : Env :=
  ⟨fun _ ps =>
      match ps with
      | some (("page", _) :: _) => some (PyVal.list [])
      | _ => some (PyVal.dict [("items", PyVal.list [])]),
   Except.error ()⟩

/-- A world where every books response is an object with an empty `items`
list. -/
def envBooksEmptyDict : Env :=
  ⟨fun _ _ => some (PyVal.dict [("items", PyVal.list [])]), Except.error ()⟩

/-- Three seats: one occupied, one free computer seat, one free study
seat. -/
def seatsSample : List PyVal :=
  [PyVal.dict [("identifier", PyVal.str "S1"), ("is_occupied", PyVal.bool true),
               ("is_computer", PyVal.bool false)],
   PyVal.dict [("identifier", PyVal.str "S2"), ("is_occupied", PyVal.bool false),
               ("is_computer", PyVal.bool true)],
   PyVal.dict [("identifier", PyVal.str "S3"), ("is_occupied", PyVal.bool false),
               ("is_computer", PyVal.bool false)]]

/-- A world whose library service always answers with `seatsSample`. -/
def envSeats : Env :=
  ⟨fun _ _ => some (PyVal.list seatsSample), Except.error ()⟩

/-- The hours record of the C6 scenario. -/
def mondayHours : PyVal :=
  PyVal.dict [("weekday", PyVal.str "Monday"), ("open_time", PyVal.str "08:00"),
              ("close_time", PyVal.str "20:00")]

/-! ## Auxiliary lemmas -/

theorem listPre_iff (n h : List Char) : listPre n h = true ↔ ∃ r, h = n ++ r := by
  induction n generalizing h with
  | nil => simp [listPre]
  | cons a as ih =>
    cases h with
    | nil => simp [listPre]
    | cons b bs =>
      simp only [listPre, Bool.and_eq_true, beq_iff_eq, ih, List.cons_append,
        List.cons.injEq]
      constructor
      · rintro ⟨hab, r, hr⟩
        exact ⟨r, hab.symm, hr⟩
      · rintro ⟨r, hab, hr⟩
        exact ⟨hab.symm, r, hr⟩

theorem listSub_iff (n h : List Char) : listSub n h = true ↔ ∃ p q, h = p ++ n ++ q := by
  induction h with
  | nil =>
    simp only [listSub, List.isEmpty_iff]
    constructor
    · rintro rfl
      exact ⟨[], [], rfl⟩
    · rintro ⟨p, q, hpq⟩
      rcases List.append_eq_nil.mp (List.append_eq_nil.mp hpq.symm).1 with ⟨-, hn⟩
      exact hn
  | cons c t ih =>
    simp only [listSub, Bool.or_eq_true, listPre_iff, ih]
    constructor
    · rintro (⟨r, hr⟩ | ⟨p, q, hpq⟩)
      · exact ⟨[], r, by simpa using hr⟩
      · exact ⟨c :: p, q, by simp [hpq]⟩
    · rintro ⟨p, q, hpq⟩
      cases p with
      | nil =>
        exact Or.inl ⟨q, by simpa using hpq⟩
      | cons x ps =>
        rcases List.cons.injEq .. ▸ hpq with ⟨-, ht⟩
        exact Or.inr ⟨ps, q, by simpa using ht⟩

/-- A string containing `textbook` contains `book`. -/
theorem hasSub_book_of_textbook (um : String) (h : hasSub "textbook" um = true) :
    hasSub "book" um = true := by
  unfold hasSub at h ⊢
  rw [listSub_iff] at h ⊢
  obtain ⟨p, q, hpq⟩ := h
  refine ⟨p ++ "text".toList, q, ?_⟩
  have hsplit : ("textbook".toList : List Char) = "text".toList ++ "book".toList := rfl
  rw [hpq, hsplit]
  simp [List.append_assoc]

theorem lastN_length_le (n : Nat) (xs : List PyVal) : (lastN n xs).length ≤ n := by
  simp only [lastN, List.length_drop]
  omega

theorem isWordChar_of_isUpper {c : Char} (h : c.isUpper = true) : isWordChar c = true := by
  simp [isWordChar, Char.isAlphanum, Char.isAlpha, h]

theorem coreAt_head_not_upper {a : Char} (l : List Char) (h : a.isUpper = false) :
    coreAt (a :: l) = Option.none := by
  rcases l with _ | ⟨b, _ | ⟨c, _ | ⟨d, _ | ⟨e, _ | ⟨f, _ | ⟨g, rest⟩⟩⟩⟩⟩⟩ <;>
    simp [coreAt, h]

theorem coreAt_eq_some {l tok rest : List Char} (h : coreAt l = some (tok, rest)) :
    l = tok ++ rest ∧ corePat tok = true := by
  unfold coreAt at h
  split at h
  · rename_i a b c d e f g rest2
    split at h
    · rename_i hguard
      rcases Option.some.injEq .. ▸ h with hpair
      obtain ⟨htok, hrest⟩ := Prod.mk.injEq .. ▸ hpair
      subst htok
      subst hrest
      exact ⟨rfl, by simpa [corePat] using hguard⟩
    · cases h
  · cases h

theorem scanModule_eq_some {l : List Char} :
    ∀ {prev : Bool} {tok : List Char}, scanModule prev l = some tok →
      corePat tok = true ∧ ∃ p q, l = p ++ tok ++ q := by
  induction l with
  | nil =>
    intro prev tok h
    simp [scanModule] at h
  | cons c cs ih =>
    intro prev tok h
    cases prev with
    | true =>
      obtain ⟨hc, p, q, hpq⟩ := ih (h : scanModule (isWordChar c) cs = some tok)
      exact ⟨hc, c :: p, q, by simp [hpq]⟩
    | false =>
      simp only [scanModule] at h
      rw [if_neg (by simp)] at h
      split at h
      · rename_i tok2 rest heq
        by_cases hA : afterOk rest = true
        · rw [if_pos hA] at h
          cases h
          obtain ⟨hl, hp⟩ := coreAt_eq_some heq
          exact ⟨hp, [], rest, by simpa using hl⟩
        · rw [if_neg hA] at h
          obtain ⟨hc2, p, q, hpq⟩ := ih h
          exact ⟨hc2, c :: p, q, by simp [hpq]⟩
      · obtain ⟨hc2, p, q, hpq⟩ := ih h
        exact ⟨hc2, c :: p, q, by simp [hpq]⟩

theorem coreHere_append {t : List Char} (q : List Char) (h : corePat t = true) :
    coreHere (t ++ q) = true := by
  unfold corePat at h
  split at h
  · rename_i a b c d e f g
    simp only [List.cons_append, List.nil_append, coreHere, coreAt, h]
    rfl
  · exact Bool.noConfusion h

theorem hasCore_of_corePat {t : List Char} (p q : List Char) (h : corePat t = true) :
    hasCore (p ++ t ++ q) = true := by
  induction p with
  | nil =>
    have hch := coreHere_append q h
    cases t with
    | nil => simp [corePat] at h
    | cons a t2 =>
      simp only [List.cons_append] at hch
      simp only [List.nil_append, List.cons_append, hasCore, Bool.or_eq_true]
      exact Or.inl hch
  | cons x xs ih =>
    simp only [List.cons_append, hasCore, Bool.or_eq_true]
    right
    simpa [List.append_assoc] using ih

/-- Scanning past a non-word character: it can never start a match (the
pattern opens with an uppercase letter) and it re-establishes the `\b`
boundary for the next position. -/
theorem scanModule_cons_not_word {c : Char} (cs : List Char)
    (hc : isWordChar c = false) (prev : Bool) :
    scanModule prev (c :: cs) = scanModule false cs := by
  have hup : c.isUpper = false := by
    cases hu : c.isUpper with
    | false => rfl
    | true => rw [isWordChar_of_isUpper hu] at hc; exact Bool.noConfusion hc
  cases prev with
  | true => simp [scanModule, hc]
  | false => simp [scanModule, coreAt_head_not_upper cs hup, hc]

/-- The scanner finds `INF1511` when everything around it is non-word
characters. -/
theorem scanModule_isolated (pre post : List Char)
    (h1 : ∀ c ∈ pre, isWordChar c = false)
    (h2 : ∀ c ∈ post, isWordChar c = false) :
    scanModule false (pre ++ "INF1511".toList ++ post) = some "INF1511".toList := by
  induction pre with
  | nil =>
    have hA : afterOk post = true := by
      cases post with
      | nil => rfl
      | cons x xs => simp [afterOk, h2 x (by simp)]
    simp only [List.nil_append]
    show scanModule false ('I' :: 'N' :: 'F' :: '1' :: '5' :: '1' :: '1' :: post) = _
    simp [scanModule, coreAt, hA]
  | cons c cs ih =>
    have hc : isWordChar c = false := h1 c (by simp)
    have hrest : ∀ x ∈ cs, isWordChar x = false := fun x hx => h1 x (by simp [hx])
    simp only [List.cons_append]
    rw [scanModule_cons_not_word _ hc]
    exact ih hrest

theorem digVal_lt_ten {c : Char} (h : c.isDigit = true) : digVal c < 10 := by
  simp only [Char.isDigit, Bool.and_eq_true, decide_eq_true_eq] at h
  have h3 : c.val.toNat ≤ 57 := UInt32.toNat_le_of_le (by decide) h.2
  have h4 : digVal c = c.val.toNat - 48 := rfl
  omega

theorem pyStrptimeHM_bounds {s : String} {h m : Nat}
    (hp : pyStrptimeHM s = some (h, m)) : h < 24 ∧ m < 60 := by
  unfold pyStrptimeHM at hp
  split at hp
  · split at hp
    · rename_i hg
      simp only [Bool.and_eq_true] at hg
      cases hp
      have := digVal_lt_ten hg.1
      have := digVal_lt_ten hg.2
      omega
    · exact Option.noConfusion hp
  · split at hp
    · rename_i hg
      simp only [Bool.and_eq_true, decide_eq_true_eq] at hg
      cases hp
      have := digVal_lt_ten hg.1.1.1
      omega
    · exact Option.noConfusion hp
  · split at hp
    · rename_i hg
      simp only [Bool.and_eq_true, decide_eq_true_eq] at hg
      cases hp
      have := digVal_lt_ten hg.2
      omega
    · exact Option.noConfusion hp
  · split at hp
    · rename_i hg
      simp only [Bool.and_eq_true, decide_eq_true_eq] at hg
      cases hp
      omega
    · exact Option.noConfusion hp
  · exact Option.noConfusion hp

theorem format_time_parsed {s : String} {h m : Nat}
    (hp : pyStrptimeHM s = some (h, m)) : format_time s = strftimeIMp h m := by
  unfold format_time
  rw [hp]

theorem format_time_malformed {s : String} (hp : pyStrptimeHM s = Option.none) :
    format_time s = s := by
  unfold format_time
  rw [hp]

theorem pySub_seatKey {fs : List (String × PyVal)} {k : String}
    (h : (dictFind fs k).isSome = true) :
    pySub (PyVal.dict fs) k = Except.ok (seatField (PyVal.dict fs) k) := by
  obtain ⟨v, hv⟩ := Option.isSome_iff_exists.mp h
  simp [pySub, seatField, dictGetD, hv]

theorem seatLine_ok {s : PyVal} (hs : isSeatDict s = true) :
    seatLine s = Except.ok (seatLinePure s) := by
  cases s
  case dict fs =>
    simp only [isSeatDict, Bool.and_eq_true] at hs
    obtain ⟨⟨h1, h2⟩, h3⟩ := hs
    simp [seatLine, pySub_seatKey h1, pySub_seatKey h3, seatLinePure,
      Bind.bind, Except.bind, Pure.pure, Except.pure]
  all_goals simp [isSeatDict] at hs

theorem exFilter_seats {xs : List PyVal} (h : ∀ s ∈ xs, isSeatDict s = true) :
    exFilter (fun s => do
      let occ ← pySub s "is_occupied"
      pure (!pyTruthy occ)) xs =
    Except.ok (xs.filter (fun s => !pyTruthy (seatField s "is_occupied"))) := by
  induction xs with
  | nil => rfl
  | cons x xs ih =>
    have hx := h x (by simp)
    have hxs : ∀ s ∈ xs, isSeatDict s = true := fun s hs => h s (by simp [hs])
    have hsub : pySub x "is_occupied" = Except.ok (seatField x "is_occupied") := by
      cases x
      case dict fs =>
        simp only [isSeatDict, Bool.and_eq_true] at hx
        exact pySub_seatKey hx.1.2
      all_goals simp [isSeatDict] at hx
    rw [exFilter, hsub, ih hxs]
    cases hb : pyTruthy (seatField x "is_occupied") <;>
      simp [List.filter_cons, hb, Bind.bind, Except.bind, Functor.map, Except.map, Pure.pure, Except.pure]

theorem exMap_seatLine {xs : List PyVal} (h : ∀ s ∈ xs, isSeatDict s = true) :
    exMap seatLine xs = Except.ok (xs.map seatLinePure) := by
  induction xs with
  | nil => rfl
  | cons x xs ih =>
    have hx := seatLine_ok (h x (by simp))
    have hxs : ∀ s ∈ xs, isSeatDict s = true := fun s hs => h s (by simp [hs])
    simp [exMap, hx, ih hxs, Bind.bind, Except.bind, Pure.pure, Except.pure]

/-- What every execution path after a successfully computed enrichment has
in common: the call log is the dispatch's, the conversation posted to the
completion service is system prompt, retained context, optional enrichment
message, user message — in that order — and a failing completion call turns
into the fixed busy apology with status 200. -/
theorem chat_after_dispatch (env : Env) (req : ChatRequest) (lc : String)
    (hok : (libraryDispatch env req.message).2 = Except.ok lc)
    (hs : ¬ pyStrip req.message = "") :
    (chat_endpoint env req).libCalls = (libraryDispatch env req.message).1 ∧
    (chat_endpoint env req).sentMessages =
      some ([SCCS_SYSTEM_PROMPT] ++ ctxMsgs req.context ++ enrichmentMsgs lc ++
        [userMsg req.message]) ∧
    (chat_endpoint env req).status = 200 ∧
    (env.completion = Except.error () → (chat_endpoint env req).reply = busyReply) := by
  have hmsg :
      (match req.context with
        | some ctx => if !ctx.isEmpty then [SCCS_SYSTEM_PROMPT] ++ lastN 3 ctx
                      else [SCCS_SYSTEM_PROMPT]
        | Option.none => [SCCS_SYSTEM_PROMPT]) =
      [SCCS_SYSTEM_PROMPT] ++ ctxMsgs req.context := by
    cases req.context with
    | none => simp [ctxMsgs]
    | some ctx =>
      cases hE : ctx.isEmpty <;> simp [ctxMsgs, hE]
  unfold chat_endpoint chatInner
  rw [if_neg hs]
  dsimp only
  rw [hok, hmsg]
  cases hcomp : env.completion with
  | error e =>
    cases e
    dsimp only
    refine ⟨rfl, ?_, rfl, fun _ => rfl⟩
    by_cases hlc : lc = "" <;>
      simp [hlc, enrichmentMsgs, userMsg, List.append_assoc]
  | ok result =>
    dsimp only
    cases hext : extractContent result with
    | error e =>
      dsimp only
      refine ⟨rfl, ?_, rfl, fun hcontra => Except.noConfusion hcontra⟩
      by_cases hlc : lc = "" <;>
        simp [hlc, enrichmentMsgs, userMsg, List.append_assoc]
    | ok content =>
      dsimp only
      refine ⟨rfl, ?_, rfl, fun hcontra => Except.noConfusion hcontra⟩
      by_cases hlc : lc = "" <;>
        simp [hlc, enrichmentMsgs, userMsg, List.append_assoc]

/-! ## The claims -/

/-- **C1.**  The claim says an empty or whitespace-only `message` yields a
400-class error with an error detail and no outbound call.  Line 175 does
raise `HTTPException(400, "Empty message")` and no outbound call is made,
but `HTTPException` subclasses `Exception`, so the endpoint's own blanket
`except Exception` (line 338) swallows it and the wire response is HTTP 200
with the generic technical-difficulties apology — no 400 ever reaches the
client.  This theorem exhibits both the raised exception and the actual
200 response, for a whitespace-only and for an empty message, in every
world `env`. -/
theorem c1_empty_message_swallowed_400 (env : Env) (uid : Option String)
    (ctx : Option (List PyVal)) :
    chatInner env ⟨"   ", uid, ctx⟩ =
      Except.error (PyErr.httpExc 400 "Empty message", [], Option.none) ∧
    chat_endpoint env ⟨"   ", uid, ctx⟩ = ⟨200, techDifficultiesReply, [], Option.none⟩ ∧
    chat_endpoint env ⟨"", uid, ctx⟩ = ⟨200, techDifficultiesReply, [], Option.none⟩ :=
  ⟨rfl, rfl, rfl⟩

/-- **C2.**  The claim says any library-data failure is treated as "no
data", never fatal to the request and never surfaced to the user.
`fetch_library_data` itself never throws, but the book fallback at line 216
calls `.get` on its result without a `None` check, so when the primary and
the fallback books fetch both fail the request dies with `AttributeError`
and the user receives the technical-difficulties apology instead of a chat
reply — the completion service is never called.  This theorem evaluates
that failing execution: message `"find me a book"` in the world where the
library service is down. -/
theorem c2_library_failure_fatal_on_book_path :
    chat_endpoint envDown ⟨"find me a book", Option.none, Option.none⟩ =
      ⟨200, techDifficultiesReply,
       [⟨"books", some [("q", PyVal.str "find me a book")]⟩,
        ⟨"books", some [("page", PyVal.int 1), ("per_page", PyVal.int 5)]⟩],
       Option.none⟩ :=
  rfl

/-- **C3.**  The claim says the books router issues exactly one fallback
call for the unfiltered first page (page 1, 5 per page) and that a second
empty result yields the clarification request, never silence.  The single
fallback call with those parameters is real, and when the fallback response
is a JSON *object* with an empty `items` list the clarification is indeed
produced (second conjunct).  But when the fallback response is a bare JSON
*array* — a shape line 216's own dead default `raw2 if isinstance(raw2,
list) else []` shows the author meant to support, and which line 209
supports for the primary call — `raw2.get` raises `AttributeError` and the
user gets the generic apology, not the clarification (first conjunct:
fallback returns the empty list `[]`). -/
theorem c3_book_fallback_clarification :
    chat_endpoint envBooksListFallback ⟨"recommend a book", Option.none, Option.none⟩ =
      ⟨200, techDifficultiesReply,
       [⟨"books", some [("q", PyVal.str "recommend a book")]⟩,
        ⟨"books", some [("page", PyVal.int 1), ("per_page", PyVal.int 5)]⟩],
       Option.none⟩ ∧
    libraryDispatch envBooksEmptyDict "recommend a book" =
      ([⟨"books", some [("q", PyVal.str "recommend a book")]⟩,
        ⟨"books", some [("page", PyVal.int 1), ("per_page", PyVal.int 5)]⟩],
       Except.ok bookClarification) :=
  ⟨rfl, rfl⟩

/-- **C4.**  Sub-intent dispatch is ordered and first-match-wins: any
message whose lowercase form contains `computer` and neither `seat` nor
`book` selects the computer sub-intent — one call to
`libraries/{campusId}/computers` — regardless of what else (e.g. `room`)
the message contains and of what the services answer.  (`textbook` cannot
occur without `book`, so the book guard is settled by the `book`
hypothesis.) -/
theorem c4_computer_priority (env : Env) (msg : String)
    (hcomp : hasSub "computer" (asciiLower msg) = true)
    (hseat : hasSub "seat" (asciiLower msg) = false)
    (hbook : hasSub "book" (asciiLower msg) = false) :
    libraryDispatch env msg = computersBranch env (get_campus_id msg) ∧
    (libraryDispatch env msg).1 =
      [⟨"libraries/" ++ toString (get_campus_id msg) ++ "/computers", Option.none⟩] := by
  have htb : hasSub "textbook" (asciiLower msg) = false := by
    cases h : hasSub "textbook" (asciiLower msg) with
    | false => rfl
    | true =>
      rw [hasSub_book_of_textbook _ h] at hbook
      exact Bool.noConfusion hbook
  have hg : gate (asciiLower msg) = true := by
    simp [gate, gateKeywords, hcomp]
  have hd : libraryDispatch env msg = computersBranch env (get_campus_id msg) := by
    simp [libraryDispatch, hg, hbook, htb, hcomp]
  exact ⟨hd, by rw [hd]; rfl⟩

/-- Witness for C4: `"which computer room is open"` contains `room`, yet
the computer sub-intent wins. -/
theorem c4_computer_priority_witness :
    libraryDispatch envDown "which computer room is open" =
      computersBranch envDown (get_campus_id "which computer room is open") ∧
    (libraryDispatch envDown "which computer room is open").1 =
      [⟨"libraries/" ++ toString (get_campus_id "which computer room is open") ++ "/computers",
        Option.none⟩] :=
  c4_computer_priority envDown "which computer room is open" (by decide) (by decide) (by decide)

/-- **C5.**  For every request whose enrichment computation finishes, the
conversation posted to the completion service is exactly system prompt,
then at most the last three context messages in order, then one system-role
enrichment message exactly when the enrichment text is non-empty, then the
user's message last. -/
theorem c5_conversation_shape (env : Env) (req : ChatRequest) (lc : String)
    (hok : (libraryDispatch env req.message).2 = Except.ok lc)
    (hs : ¬ pyStrip req.message = "") :
    (chat_endpoint env req).sentMessages =
      some ([SCCS_SYSTEM_PROMPT] ++ ctxMsgs req.context ++ enrichmentMsgs lc ++
        [userMsg req.message]) ∧
    (ctxMsgs req.context).length ≤ 3 ∧
    (lc ≠ "" → enrichmentMsgs lc =
      [PyVal.dict [("role", PyVal.str "system"), ("content", PyVal.str lc)]]) := by
  refine ⟨(chat_after_dispatch env req lc hok hs).2.1, ?_, ?_⟩
  · cases req.context with
    | none => simp [ctxMsgs]
    | some ctx =>
      cases hE : ctx.isEmpty with
      | true => simp [ctxMsgs, hE]
      | false => simpa [ctxMsgs, hE] using lastN_length_le 3 ctx
  · intro hlc
    unfold enrichmentMsgs
    exact if_pos hlc

/-- Witness for C5: a four-message context is trimmed to its last three and
the empty enrichment adds no message. -/
theorem c5_conversation_shape_witness :
    (chat_endpoint envDown ⟨"hello", Option.none,
        some [PyVal.str "m1", PyVal.str "m2", PyVal.str "m3", PyVal.str "m4"]⟩).sentMessages =
      some ([SCCS_SYSTEM_PROMPT] ++
        ctxMsgs (some [PyVal.str "m1", PyVal.str "m2", PyVal.str "m3", PyVal.str "m4"]) ++
        enrichmentMsgs "" ++ [userMsg "hello"]) ∧
    (ctxMsgs (some [PyVal.str "m1", PyVal.str "m2", PyVal.str "m3", PyVal.str "m4"])).length ≤ 3 ∧
    ("" ≠ "" → enrichmentMsgs "" =
      [PyVal.dict [("role", PyVal.str "system"), ("content", PyVal.str "")]]) :=
  c5_conversation_shape envDown
    ⟨"hello", Option.none, some [PyVal.str "m1", PyVal.str "m2", PyVal.str "m3", PyVal.str "m4"]⟩
    "" rfl (by decide)

/-- **C6.**  `format_time` turns any string `strptime` accepts as `%H:%M`
(hour 0-23, minute 0-59) into the 12-hour `%I:%M %p` rendering and returns
any other string unchanged; consequently the Monday 08:00-20:00 hours
record renders as `Monday: 08:00 AM to 08:00 PM`. -/
theorem c6_format_time_spec :
    (∀ (s : String) (h m : Nat), pyStrptimeHM s = some (h, m) →
       h < 24 ∧ m < 60 ∧ format_time s = strftimeIMp h m) ∧
    (∀ s : String, pyStrptimeHM s = Option.none → format_time s = s) ∧
    hoursLine mondayHours = Except.ok "Monday: 08:00 AM to 08:00 PM" := by
  refine ⟨fun s h m hp => ?_, fun s hp => format_time_malformed hp, rfl⟩
  obtain ⟨h1, h2⟩ := pyStrptimeHM_bounds hp
  exact ⟨h1, h2, format_time_parsed hp⟩

/-- Witness for C6: `9:05` parses and renders, `25:00` passes through. -/
theorem c6_format_time_spec_witness :
    (9 < 24 ∧ 5 < 60 ∧ format_time "9:05" = strftimeIMp 9 5) ∧
    format_time "25:00" = "25:00" :=
  ⟨c6_format_time_spec.1 "9:05" 9 5 rfl, c6_format_time_spec.2.1 "25:00" rfl⟩

/-- **C7 counterexample.**  The message contains `INF1511` surrounded by
text, yet the extractor returns nothing: the `x` touching the token is a
word character, so the leading `\b` of `\b[A-Z]{3}[0-9]{4}\b` fails. -/
theorem c7_counterexample :
    hasSub "INF1511" "Is the xINF1511 textbook available?" = true ∧
    moduleOf "Is the xINF1511 textbook available?" = Option.none :=
  ⟨rfl, rfl⟩

/-- **C7 (amended).**  Module-code extraction over the original-case
message: (1) a message with no three-uppercase-plus-four-digit substring
extracts nothing; (2) whatever is extracted is such a token and occurs in
the message; (3) a message consisting of `INF1511` surrounded only by
non-word characters (spaces, punctuation, nothing) extracts exactly
`INF1511` — but a word character touching the token suppresses the match
(see the counterexample). -/
theorem c7_module_extraction_amended :
    (∀ m : String, hasCore m.toList = false → moduleOf m = Option.none) ∧
    (∀ m t : String, moduleOf m = some t →
       corePat t.toList = true ∧ hasSub t m = true) ∧
    (∀ pre post : List Char,
       (∀ c ∈ pre, isWordChar c = false) → (∀ c ∈ post, isWordChar c = false) →
       moduleOf (String.mk (pre ++ "INF1511".toList ++ post)) = some "INF1511") := by
  refine ⟨?_, ?_, ?_⟩
  · intro m h
    unfold moduleOf
    cases hs : scanModule false m.toList with
    | none => rfl
    | some tok =>
      obtain ⟨hc, p, q, hpq⟩ := scanModule_eq_some hs
      rw [hpq, hasCore_of_corePat p q hc] at h
      exact Bool.noConfusion h
  · intro m t h
    unfold moduleOf at h
    cases hs : scanModule false m.toList with
    | none => rw [hs] at h; exact Option.noConfusion h
    | some tok =>
      rw [hs] at h
      simp only [Option.map_some', Option.some.injEq] at h
      obtain ⟨hc, p, q, hpq⟩ := scanModule_eq_some hs
      subst h
      refine ⟨hc, ?_⟩
      unfold hasSub
      rw [listSub_iff]
      exact ⟨p, q, hpq⟩
  · intro pre post h1 h2
    unfold moduleOf
    rw [show (String.mk (pre ++ "INF1511".toList ++ post)).toList =
          pre ++ "INF1511".toList ++ post from rfl]
    rw [scanModule_isolated pre post h1 h2]
    rfl

/-- Witness for C7 (amended): each conjunct applied at a concrete input. -/
theorem c7_module_extraction_amended_witness :
    moduleOf "just words" = Option.none ∧
    (corePat ("INF1511" : String).toList = true ∧
      hasSub "INF1511" "get INF1511 now" = true) ∧
    moduleOf (String.mk (" ".toList ++ "INF1511".toList ++ "!".toList)) = some "INF1511" :=
  ⟨c7_module_extraction_amended.1 "just words" rfl,
   c7_module_extraction_amended.2.1 "get INF1511 now" "INF1511" rfl,
   c7_module_extraction_amended.2.2 " ".toList "!".toList (by decide) (by decide)⟩

/-- **C8.**  Whenever the completion call is reached and fails (transport
error, timeout or non-2xx — all `RequestException`), the endpoint answers
HTTP 200 with exactly the fixed busy apology; the failure is not
propagated. -/
theorem c8_completion_failure_busy (env : Env) (req : ChatRequest) (lc : String)
    (hok : (libraryDispatch env req.message).2 = Except.ok lc)
    (hs : ¬ pyStrip req.message = "")
    (hfail : env.completion = Except.error ()) :
    (chat_endpoint env req).status = 200 ∧ (chat_endpoint env req).reply = busyReply := by
  obtain ⟨-, -, hstatus, hreply⟩ := chat_after_dispatch env req lc hok hs
  exact ⟨hstatus, hreply hfail⟩

/-- Witness for C8. -/
theorem c8_completion_failure_busy_witness :
    (chat_endpoint envDown ⟨"hi there", Option.none, Option.none⟩).status = 200 ∧
    (chat_endpoint envDown ⟨"hi there", Option.none, Option.none⟩).reply = busyReply :=
  c8_completion_failure_busy envDown ⟨"hi there", Option.none, Option.none⟩ ""
    rfl (by decide) rfl

/-- **C9.**  The sub-intent triggers `news`, `open`, `close`, `group study`
are not gate keywords: a message containing one of them but none of the
nine gate keywords makes no library call and leaves the enrichment
empty. -/
theorem c9_gate_blocks_triggers (env : Env) (msg : String)
    (htrig : (hasSub "news" (asciiLower msg) || hasSub "open" (asciiLower msg) ||
              hasSub "close" (asciiLower msg) ||
              hasSub "group study" (asciiLower msg)) = true)
    (hgate : ∀ k ∈ gateKeywords, hasSub k (asciiLower msg) = false) :
    libraryDispatch env msg = ([], Except.ok "") ∧
    (∀ uid ctx, (chat_endpoint env ⟨msg, uid, ctx⟩).libCalls = []) := by
  have h1 := hgate "book" (by simp [gateKeywords])
  have h2 := hgate "library" (by simp [gateKeywords])
  have h3 := hgate "seat" (by simp [gateKeywords])
  have h4 := hgate "computer" (by simp [gateKeywords])
  have h5 := hgate "room" (by simp [gateKeywords])
  have h6 := hgate "announcement" (by simp [gateKeywords])
  have h7 := hgate "hour" (by simp [gateKeywords])
  have h8 := hgate "study room" (by simp [gateKeywords])
  have h9 := hgate "venue" (by simp [gateKeywords])
  have hg : gate (asciiLower msg) = false := by
    simp [gate, gateKeywords, h1, h2, h3, h4, h5, h6, h7, h8, h9]
  have hd : libraryDispatch env msg = ([], Except.ok "") := by
    simp [libraryDispatch, hg]
  refine ⟨hd, fun uid ctx => ?_⟩
  by_cases hsE : pyStrip msg = ""
  · unfold chat_endpoint chatInner
    rw [if_pos hsE]
  · obtain ⟨hcalls, -, -, -⟩ :=
      chat_after_dispatch env ⟨msg, uid, ctx⟩ "" (by rw [hd]) hsE
    rw [hcalls, hd]

/-- Witness for C9: `"any news today?"` triggers the announcements
sub-intent vocabulary but passes no gate keyword. -/
theorem c9_gate_blocks_triggers_witness :
    libraryDispatch envDown "any news today?" = ([], Except.ok "") ∧
    (∀ uid ctx, (chat_endpoint envDown ⟨"any news today?", uid, ctx⟩).libCalls = []) :=
  c9_gate_blocks_triggers envDown "any news today?" (by decide) (by decide)

/-- **C10.**  When the seats fetch returns a non-empty list of well-formed
seat records, the enrichment lists exactly the first five seats whose
`is_occupied` flag is falsy — each labelled `Computer` or `Study` by its
`is_computer` flag — so at most five lines and never an occupied seat. -/
theorem c10_seats_enrichment (env : Env) (campus_id : Int) (xs : List PyVal)
    (hresp : env.library ("libraries/" ++ toString campus_id ++ "/seats/availability")
        Option.none = some (PyVal.list xs))
    (hne : xs ≠ [])
    (hwf : ∀ s ∈ xs, isSeatDict s = true) :
    seatsBranch env campus_id =
      ([⟨"libraries/" ++ toString campus_id ++ "/seats/availability", Option.none⟩],
       Except.ok ("Available Seats:\n" ++ String.intercalate "\n"
         (((xs.filter (fun s => !pyTruthy (seatField s "is_occupied"))).take 5).map
            seatLinePure))) ∧
    ((xs.filter (fun s => !pyTruthy (seatField s "is_occupied"))).take 5).length ≤ 5 ∧
    (∀ s ∈ (xs.filter (fun s => !pyTruthy (seatField s "is_occupied"))).take 5,
       pyTruthy (seatField s "is_occupied") = false) := by
  have htake : ∀ s ∈ (xs.filter (fun s => !pyTruthy (seatField s "is_occupied"))).take 5,
      isSeatDict s = true :=
    fun s hsmem => hwf s (List.mem_of_mem_filter (List.mem_of_mem_take hsmem))
  refine ⟨?_, ?_, ?_⟩
  · unfold seatsBranch
    dsimp only
    rw [hresp]
    have htr : pyTruthy (PyVal.list xs) = true := by
      simp [pyTruthy, List.isEmpty_iff, hne]
    simp only [fetchTruthy, htr, if_true]
    rw [exFilter_seats hwf]
    simp only [Bind.bind, Except.bind]
    rw [exMap_seatLine htake]
    simp [Functor.map, Except.map, Pure.pure, Except.pure, Bind.bind, Except.bind]
  · simpa [List.length_take] using Nat.min_le_left 5 _
  · intro s hsmem
    have hmem := List.mem_of_mem_take hsmem
    have := (List.mem_filter.mp hmem).2
    simpa using this

/-- Witness for C10: of three sample seats (one occupied) the two free ones
are listed with their kind labels. -/
theorem c10_seats_enrichment_witness :
    seatsBranch envSeats 1 =
      ([⟨"libraries/" ++ toString (1 : Int) ++ "/seats/availability", Option.none⟩],
       Except.ok ("Available Seats:\n" ++ String.intercalate "\n"
         (((seatsSample.filter
              (fun s => !pyTruthy (seatField s "is_occupied"))).take 5).map
            seatLinePure))) ∧
    ((seatsSample.filter (fun s => !pyTruthy (seatField s "is_occupied"))).take 5).length ≤ 5 ∧
    (∀ s ∈ (seatsSample.filter (fun s => !pyTruthy (seatField s "is_occupied"))).take 5,
       pyTruthy (seatField s "is_occupied") = false) :=
  c10_seats_enrichment envSeats 1 seatsSample rfl (by simp [seatsSample]) (by decide)

end SCCS
